import Mathlib

/-!
# Verification of `go-stash` (`stash/stash.go`)

A shallow embedding of the `stash` package: a simple in-memory key-value
store backed by a single JSON file on disk.

## Modelling conventions

* The JSON codec is an external collaborator; the store only moves opaque
  serialized bytes around.  We model a marshalled value (`json.RawMessage`)
  by the abstract JSON value `Json` it encodes; structure inside values is
  irrelevant to the store, so a few leaf constructors suffice.
* A Go value passed to `Save` is either serializable (carrying the `Json`
  its marshalling produces) or a value whose custom `MarshalJSON` fails,
  mirroring the test type `Unmarshallable` in `stash_test.go`.
* `v1Data` (Go: `map[string]json.RawMessage`) is an association list with
  Go-map insert/lookup semantics.
* The file system is a `Disk`: the contents of the single backing path,
  plus flags injecting I/O failures on write (unwritable path) and on read
  (permission denied, as in `TestUnreadableFile`).  `os.Stat`'s
  `IsNotExist` corresponds to the file slot being `none`.
* Go methods on `*Stash` become state-passing functions returning the
  receiver; the mutex only serializes access and has no sequential
  meaning, so it is omitted.  The type assertion `s.data.(v1Data)` panics
  when `data` is a nil interface; operations performing it return
  `Option`, `none` marking the panic (unreachable in every claim).
-/

/-- Abstract JSON values: the result of `json.Marshal` on a value, and the
content of a `json.RawMessage`.  The store never inspects the structure of
a stored value, so leaf constructors are enough to model arbitrary data. -/
inductive Json where
  | null : Json
  | bool (b : Bool) : Json
  | num (n : Int) : Json
  | str (s : String) : Json
  deriving DecidableEq, Repr

/-- A Go value handed to `Save` / produced by `Read`: either an ordinary
serializable value, identified by the JSON its marshalling produces, or a
value whose `MarshalJSON` fails (the test type `Unmarshallable`). -/
inductive GoValue where
  | serializable (j : Json) : GoValue
  | unmarshallable : GoValue
  deriving DecidableEq, Repr

/-- `json.Marshal(value)` for a value passed to `Save`.  The model error
string is the one produced by the test type `Unmarshallable`. -/
def marshalValue : GoValue → Except String Json
  | .serializable j => .ok j
  | .unmarshallable => .error "error!"

/-- `json.Unmarshal(item, ptr)` for a stored value: decoding valid
marshalled bytes into an unconstrained target succeeds and yields the value
those bytes encode (the codec round-trip contract; shape-mismatch failures
are exercised by no claim and not modelled). -/
def unmarshalValue (j : Json) : GoValue :=
  .serializable j

/-- Go: `const version1 = 1`. -/
def version1 : Int := 1

/-- Go: `type v1Data map[string]json.RawMessage`, as an association list
with unique keys under `insertEntry`. -/
abbrev v1Data := List (String × Json)

/-- Go map assignment `d[key] = value`: replace the binding in place if the
key is present, otherwise add it. -/
def insertEntry : v1Data → String → Json → v1Data
  | [], key, value => [(key, value)]
  | (k', v') :: rest, key, value =>
    if k' = key then (key, value) :: rest
    else (k', v') :: insertEntry rest key value

/-- Go map lookup `item, ok := d[key]`. -/
def lookupEntry : v1Data → String → Option Json
  | [], _ => none
  | (k', v') :: rest, key => if k' = key then some v' else lookupEntry rest key

/-- The serialized payload inside a container's `Data` field: either the
valid encoding of a `v1Data` map, the encoding of a nil interface
(`json.Marshal(nil) = "null"`), or bytes that do not decode to a map. -/
inductive PayloadBytes where
  | v1 (entries : v1Data) : PayloadBytes
  | jnull : PayloadBytes
  | invalid (s : String) : PayloadBytes
  deriving DecidableEq, Repr

/-- Go: `type container struct { Version int; Data json.RawMessage }`. -/
structure Container where
  Version : Int
  Data : PayloadBytes
  deriving DecidableEq, Repr

/-- The bytes stored in the backing file: either the valid encoding of a
`container`, or arbitrary non-container content (`TestBadFile` writes
`"foobarbaz"`). -/
inductive FileBytes where
  | envelope (c : Container) : FileBytes
  | garbage (s : String) : FileBytes
  deriving DecidableEq, Repr

/-- The typed errors the store returns, one constructor per kind
(`UnknownVersionError`, `NoSuchKeyError`, wrapped marshal / unmarshal
errors, and file I/O errors carrying the path). -/
inductive StashError where
  | unknownVersion (badVersion : Int) : StashError
  | noSuchKey (s : String) : StashError
  | serializationFailure (msg : String) : StashError
  | deserializationFailure (msg : String) : StashError
  | ioFailure (path : String) : StashError
  deriving DecidableEq, Repr

/-- The file system visible to the store: contents of the single backing
path (`none` = the file does not exist), plus failure-injection flags for
`ioutil.WriteFile` and `ioutil.ReadFile`. -/
structure Disk where
  file : Option FileBytes
  writeFails : Bool
  readFails : Bool
  deriving DecidableEq, Repr

/-- `ioutil.ReadFile(path)`. -/
def ReadFile (w : Disk) (path : String) : Except StashError FileBytes :=
  match w.file with
  | none => .error (.ioFailure path)
  | some contents =>
    if w.readFails then .error (.ioFailure path) else .ok contents

/-- `ioutil.WriteFile(path, contents, 0600)`: returns the updated disk and
the write error, if any. -/
def WriteFile (w : Disk) (contents : FileBytes) (path : String) :
    Disk × Option StashError :=
  if w.writeFails then (w, some (.ioFailure path))
  else ({ w with file := some contents }, none)

/-- Go: `type Stash struct { mutex *sync.Mutex; file string; version int;
autoFlush bool; data interface{} }`.  The mutex is omitted (it has no
sequential meaning); `data` is `none` when the interface is nil. -/
structure Stash where
  file : String
  version : Int
  autoFlush : Bool
  data : Option v1Data
  deriving DecidableEq, Repr

/-- `json.Marshal(s.data)`: marshalling a nil interface yields `"null"`;
marshalling a `v1Data` of valid raw messages always succeeds, so the
`err != nil` early return in `Flush` is never taken. -/
def marshalData : Option v1Data → PayloadBytes
  | some d => .v1 d
  | none => .jnull

/-- `json.Marshal(container)`: encoding an int plus valid raw-message bytes
always succeeds; the pair mirrors Go's `([]byte, error)` return. -/
def marshalContainer (c : Container) : FileBytes × Option String :=
  (.envelope c, none)

/-- `json.Unmarshal(data, &container)`. -/
def unmarshalContainer : FileBytes → Except String Container
  | .envelope c => .ok c
  | .garbage _ => .error "invalid character"

/-- `json.Unmarshal(container.Data, &v1data)`: unmarshalling `"null"` into
a map is a no-op, leaving the freshly made empty map. -/
def unmarshalV1 : PayloadBytes → Except String v1Data
  | .v1 d => .ok d
  | .jnull => .ok []
  | .invalid _ => .error "cannot unmarshal"

/-- `Stash.Flush` with the call site `json.Marshal(container)` abstracted
into the parameter `mc`, keeping the source's dataflow: the error
component of `mc`'s result is bound and then overwritten by the
`WriteFile` error before being examined. -/
def FlushWith (mc : Container → FileBytes × Option String)
    (s : Stash) (w : Disk) : Stash × Disk × Option StashError :=
  -- jsonData, err := json.Marshal(s.data)  (cannot fail, see marshalData)
  let jsonData := marshalData s.data
  -- container := container{Version: s.version, Data: jsonData}
  let c : Container := { Version := s.version, Data := jsonData }
  -- jsonFileData, err := json.Marshal(container)
  let r := mc c
  let jsonFileData := r.1
  -- err = ioutil.WriteFile(s.file, jsonFileData, 0600)  (r.2 overwritten)
  let wr := WriteFile w jsonFileData s.file
  (s, wr.1, wr.2)

/-- Go: `func (s *Stash) Flush() error`. -/
def Stash.Flush (s : Stash) (w : Disk) : Stash × Disk × Option StashError :=
  FlushWith marshalContainer s w

/-- Go: `func (s *Stash) Save(key string, value interface{}) error`. -/
def Stash.Save (s : Stash) (key : String) (value : GoValue) (w : Disk) :
    Option (Stash × Disk × Option StashError) :=
  if s.version = version1 then
    match marshalValue value with
    | .error msg =>
      -- errors.Wrap(err, "error marshalling value")
      some (s, w, some (.serializationFailure ("error marshalling value: " ++ msg)))
    | .ok marshalledData =>
      match s.data with
      | none => none  -- s.data.(v1Data) panics on a nil interface
      | some d =>
        let s' := { s with data := some (insertEntry d key marshalledData) }
        if s'.autoFlush then
          some (s'.Flush w)
        else
          some (s', w, none)
  else some (s, w, some (.unknownVersion s.version))

/-- Go: `func (s *Stash) Read(key string, ptr interface{}) error`.  Returns
the receiver, the value of the variable `ptr` points at after the call,
and the error. -/
def Stash.Read (s : Stash) (key : String) (ptr : GoValue) :
    Option (Stash × GoValue × Option StashError) :=
  if s.version = version1 then
    match s.data with
    | none => none  -- s.data.(v1Data) panics on a nil interface
    | some data =>
      match lookupEntry data key with
      | some item => some (s, unmarshalValue item, none)
      | none => some (s, ptr, some (.noSuchKey ""))
  else some (s, ptr, some (.unknownVersion s.version))

/-- Go: `func (s *Stash) readFromDisk() error`. -/
def Stash.readFromDisk (s : Stash) (w : Disk) : Stash × Option StashError :=
  match ReadFile w s.file with
  | .error e => (s, some e)
  | .ok data =>
    match unmarshalContainer data with
    | .error _ => (s, some (.deserializationFailure "failed to unmarshal outer data structure"))
    | .ok c =>
      let s1 := { s with version := c.Version }
      if s1.version = version1 then
        match unmarshalV1 c.Data with
        | .error _ => (s1, some (.deserializationFailure "failed to unwrap v1 data"))
        | .ok v1data => ({ s1 with data := some v1data }, none)
      else (s1, some (.unknownVersion s1.version))

/-- Go: `func NewStash(filename string, autoFlush bool) (*Stash, error)`.
The first component models the returned `*Stash` pointer (`none` would be
a nil pointer; the source returns `&result` on every path). -/
def NewStash (filename : String) (autoFlush : Bool) (w : Disk) :
    Option Stash × Option StashError × Disk :=
  let result : Stash := { file := filename, version := 0, autoFlush := autoFlush, data := none }
  match w.file with
  | none =>
    -- new database
    let result := { result with version := version1, data := some [] }
    if autoFlush then
      let r := result.Flush w
      (some r.1, r.2.2, r.2.1)
    else (some result, none, w)
  | some _ =>
    -- existing database
    let r := result.readFromDisk w
    (some r.1, r.2, w)

/-- Lookup in a store's entries through the possibly-nil `data` field. -/
def Stash.entriesLookup (s : Stash) (key : String) : Option Json :=
  s.data.bind (fun d => lookupEntry d key)

/-! ## Helper lemmas about the Go-map model -/

/-- Inserting a binding and looking the same key up yields the new value. -/
theorem lookupEntry_insertEntry_self (d : v1Data) (k : String) (j : Json) :
    lookupEntry (insertEntry d k j) k = some j := by
  induction d with
  | nil => simp [insertEntry, lookupEntry]
  | cons hd tl ih =>
    obtain ⟨k0, v0⟩ := hd
    by_cases h0 : k0 = k
    · subst h0; simp [insertEntry, lookupEntry]
    · simp [insertEntry, lookupEntry, h0, ih]

/-- Inserting a binding leaves every other key's lookup unchanged. -/
theorem lookupEntry_insertEntry_ne (d : v1Data) (k k' : String) (j : Json)
    (h : k' ≠ k) :
    lookupEntry (insertEntry d k j) k' = lookupEntry d k' := by
  induction d with
  | nil => simp [insertEntry, lookupEntry, Ne.symm h]
  | cons hd tl ih =>
    obtain ⟨k0, v0⟩ := hd
    by_cases h0 : k0 = k
    · subst h0; simp [insertEntry, lookupEntry, Ne.symm h]
    · by_cases h1 : k0 = k'
      · simp [insertEntry, lookupEntry, h0, h1, h]
      · simp [insertEntry, lookupEntry, h0, h1, h, ih]

/-! ## Claims -/

/-- Claim C2 — evaluation of the code at the failing input.  Reading the
absent key `"foo"` on a fresh version-1 store does fail with a `NoSuchKey`
error and does leave the output reference untouched, but the error the
source constructs is `NoSuchKeyError{""}`: it carries the empty string,
not the key `"foo"` that was looked up. -/
theorem read_missing_key_carries_empty_string :
    (⟨"f", 1, false, some []⟩ : Stash).Read "foo" (.serializable .null)
      = some (⟨"f", 1, false, some []⟩, .serializable .null,
              some (.noSuchKey "")) := by
  decide

/-- Claim C4 — counterexample.  Opening a path holding an envelope with the
unsupported version 42 fails with `UnknownVersion 42`, yet `NewStash` still
hands the caller a (partially initialized) `Stash` alongside the error:
the source returns `&result` on every path, so the claim "no Store is
returned to the caller, the result is an error only" is false. -/
theorem newstash_failure_counterexample :
    (NewStash "f" false ⟨some (.envelope ⟨42, .v1 []⟩), false, false⟩).1
      = some ⟨"f", 42, false, none⟩
    ∧ (NewStash "f" false ⟨some (.envelope ⟨42, .v1 []⟩), false, false⟩).2.1
      = some (.unknownVersion 42) := by
  decide

/-- Claim C4 — amended.  `open` never withholds the Store: on every path,
failing or not, `NewStash` returns a non-nil `*Stash` alongside whatever
error it reports, so callers must consult the error, not the pointer. -/
theorem newstash_always_returns_store (fn : String) (ap : Bool) (w : Disk) :
    (NewStash fn ap w).1.isSome = true := by
  obtain ⟨file, wf, rf⟩ := w
  cases file <;> cases ap <;>
    simp [NewStash, Stash.Flush, FlushWith, WriteFile, Stash.readFromDisk,
      ReadFile, unmarshalContainer, unmarshalV1]

/-- Claim C5: `Save` of a value whose marshalling fails returns the
wrapped marshalling error (when the version is the supported one; an
unsupported version reports `UnknownVersion` instead) and leaves the
store, its entries, and the disk completely unmodified; and on an
unrecognized version `Save` of any value fails with `UnknownVersion` and
mutates nothing. -/
theorem save_failure_leaves_entries_unmodified (s : Stash) (w : Disk)
    (k : String) :
    s.Save k .unmarshallable w
      = some (s, w, some (if s.version = 1 then
            .serializationFailure ("error marshalling value: " ++ "error!")
          else .unknownVersion s.version))
    ∧ ∀ (v : GoValue), s.version ≠ 1 →
        s.Save k v w = some (s, w, some (.unknownVersion s.version)) := by
  constructor
  · by_cases h : s.version = 1 <;>
      simp [Stash.Save, version1, marshalValue, h]
  · intro v h
    simp [Stash.Save, version1, h]

/-- Claim C5 — witness. -/
theorem save_failure_leaves_entries_unmodified_witness :
    (⟨"f", 2, false, some []⟩ : Stash).Save "k" (.serializable .null)
        ⟨none, false, false⟩
      = some (⟨"f", 2, false, some []⟩, ⟨none, false, false⟩,
              some (.unknownVersion 2)) :=
  (save_failure_leaves_entries_unmodified ⟨"f", 2, false, some []⟩
      ⟨none, false, false⟩ "k").2 (.serializable .null) (by decide)

/-- Claim C6: `Flush` never consults the supported-version set.  For every
store — any `version` value whatsoever — it writes an envelope tagged with
that `version` holding the current entries over the backing file, and its
only failure mode is the write itself; in particular the error is never
`UnknownVersion`. -/
theorem flush_no_version_check (s : Stash) (w : Disk) :
    s.Flush w =
      if w.writeFails then (s, w, some (.ioFailure s.file))
      else (s, { w with file := some (.envelope ⟨s.version, marshalData s.data⟩) },
            none) := by
  cases h : w.writeFails <;>
    simp [Stash.Flush, FlushWith, WriteFile, marshalContainer, h]

/-- Claim C9: in `Flush`, the error of the envelope marshal
`json.Marshal(container)` is discarded — the very next line overwrites it
with `ioutil.WriteFile`'s error.  Whatever error component the envelope
marshal reports, `Flush`'s outcome is exactly the outcome of writing the
marshal's byte component; an always-failing envelope marshal behaves
identically to the normal one. -/
theorem flush_ignores_envelope_marshal_error
    (mc : Container → FileBytes × Option String) (s : Stash) (w : Disk) :
    FlushWith mc s w
      = (s, WriteFile w (mc ⟨s.version, marshalData s.data⟩).1 s.file)
    ∧ FlushWith
        (fun c => ((marshalContainer c).1, some "json marshal failed")) s w
      = s.Flush w := by
  constructor <;> rfl

/-- Claim C3: on a store whose version was forced to any unsupported value,
`Save` and `Read` both fail with `UnknownVersion` carrying that value; and
opening a path whose envelope declares an unsupported version `V` fails
with `UnknownVersion V` (the partial store's version field is set to `V`
and its data left nil). -/
theorem unknown_version_gate (s : Stash) (w : Disk) (k : String)
    (v : GoValue) (ptr : GoValue) (fn : String) (ap : Bool) (V : Int)
    (p : PayloadBytes)
    (hs : s.version ≠ 1) (hV : V ≠ 1)
    (hw : w.file = some (.envelope ⟨V, p⟩)) (hr : w.readFails = false) :
    s.Save k v w = some (s, w, some (.unknownVersion s.version))
    ∧ s.Read k ptr = some (s, ptr, some (.unknownVersion s.version))
    ∧ NewStash fn ap w
        = (some ⟨fn, V, ap, none⟩, some (.unknownVersion V), w) := by
  refine ⟨?_, ?_, ?_⟩
  · simp [Stash.Save, version1, hs]
  · simp [Stash.Read, version1, hs]
  · simp [NewStash, hw, Stash.readFromDisk, ReadFile, hr,
      unmarshalContainer, version1, hV]

/-- Claim C3 — witness. -/
theorem unknown_version_gate_witness :
    (⟨"f", 42, false, none⟩ : Stash).Save "k" .unmarshallable
        ⟨some (.envelope ⟨7, .v1 []⟩), false, false⟩
      = some (⟨"f", 42, false, none⟩,
              ⟨some (.envelope ⟨7, .v1 []⟩), false, false⟩,
              some (.unknownVersion 42))
    ∧ (⟨"f", 42, false, none⟩ : Stash).Read "k" (.serializable .null)
      = some (⟨"f", 42, false, none⟩, .serializable .null,
              some (.unknownVersion 42))
    ∧ NewStash "g" true ⟨some (.envelope ⟨7, .v1 []⟩), false, false⟩
      = (some ⟨"g", 7, true, none⟩, some (.unknownVersion 7),
         ⟨some (.envelope ⟨7, .v1 []⟩), false, false⟩) :=
  unknown_version_gate ⟨"f", 42, false, none⟩
    ⟨some (.envelope ⟨7, .v1 []⟩), false, false⟩ "k" .unmarshallable
    (.serializable .null) "g" true 7 (.v1 [])
    (by decide) (by decide) rfl rfl

/-- Claim C7: with auto-persist disabled, opening a nonexistent path
returns the fresh store and leaves the disk untouched; any `Save` on a
store with `autoFlush = false` leaves the disk exactly as it was (the file
stays absent if never flushed); and an explicit `Flush` then creates the
file reflecting the saved value. -/
theorem lazy_persistence (fn k : String) (j : Json) (w : Disk)
    (hf : w.file = none) (hw : w.writeFails = false) :
    NewStash fn false w = (some ⟨fn, 1, false, some []⟩, none, w)
    ∧ (∀ (s : Stash) (k' : String) (v : GoValue) (w' : Disk)
          (r : Stash × Disk × Option StashError),
        s.autoFlush = false → s.Save k' v w' = some r → r.2.1 = w')
    ∧ (⟨fn, 1, false, some []⟩ : Stash).Save k (.serializable j) w
        = some (⟨fn, 1, false, some [(k, j)]⟩, w, none)
    ∧ (⟨fn, 1, false, some [(k, j)]⟩ : Stash).Flush w
        = (⟨fn, 1, false, some [(k, j)]⟩,
           { w with file := some (.envelope ⟨1, .v1 [(k, j)]⟩) }, none) := by
  refine ⟨?_, ?_, ?_, ?_⟩
  · simp [NewStash, hf, version1]
  · intro s k' v w' r haf hsave
    rcases s with ⟨sf, sv, saf, sd⟩
    replace haf : saf = false := haf
    subst haf
    by_cases hv : sv = 1
    · subst hv
      cases v with
      | unmarshallable =>
        simp [Stash.Save, version1, marshalValue] at hsave
        simp [← hsave]
      | serializable j' =>
        cases sd with
        | none => simp [Stash.Save, version1, marshalValue] at hsave
        | some d =>
          simp [Stash.Save, version1, marshalValue] at hsave
          simp [← hsave]
    · simp [Stash.Save, version1, hv] at hsave
      simp [← hsave]
  · simp [Stash.Save, version1, marshalValue, insertEntry]
  · simp [Stash.Flush, FlushWith, WriteFile, marshalData, marshalContainer, hw]

/-- Claim C7 — witness. -/
theorem lazy_persistence_witness :
    NewStash "f" false ⟨none, false, false⟩
        = (some ⟨"f", 1, false, some []⟩, none, ⟨none, false, false⟩)
    ∧ (⟨"f", 1, false, some []⟩ : Stash).Save "k"
          (.serializable (.num 7)) ⟨none, false, false⟩
        = some (⟨"f", 1, false, some [("k", .num 7)]⟩,
                ⟨none, false, false⟩, none)
    ∧ (⟨"f", 1, false, some [("k", .num 7)]⟩ : Stash).Flush
          ⟨none, false, false⟩
        = (⟨"f", 1, false, some [("k", .num 7)]⟩,
           ⟨some (.envelope ⟨1, .v1 [("k", .num 7)]⟩), false, false⟩,
           none) :=
  ⟨(lazy_persistence "f" "k" (.num 7) ⟨none, false, false⟩ rfl rfl).1,
   (lazy_persistence "f" "k" (.num 7) ⟨none, false, false⟩ rfl rfl).2.2.1,
   (lazy_persistence "f" "k" (.num 7) ⟨none, false, false⟩ rfl rfl).2.2.2⟩

/-- Claim C8: opening a nonexistent path yields a store with version 1,
empty entries, and the requested auto-persist flag; with auto-persist the
file is created at once by a flush, and a failing flush becomes the open
failure (the store is still handed back, per the source's `return
&result, result.Flush()`). -/
theorem open_nonexistent_path (fn : String) (ap : Bool) (w : Disk)
    (hf : w.file = none) :
    NewStash fn ap w
      = (some ⟨fn, 1, ap, some []⟩,
         if ap && w.writeFails then some (.ioFailure fn) else none,
         if ap && !w.writeFails then
           { w with file := some (.envelope ⟨1, .v1 []⟩) }
         else w) := by
  obtain ⟨file, wf, rf⟩ := w
  replace hf : file = none := hf
  subst hf
  cases ap <;> cases wf <;>
    simp [NewStash, Stash.Flush, FlushWith, WriteFile, marshalData,
      marshalContainer, version1]

/-- Claim C8 — witness. -/
theorem open_nonexistent_path_witness :
    NewStash "f" true ⟨none, false, false⟩
      = (some ⟨"f", 1, true, some []⟩, none,
         ⟨some (.envelope ⟨1, .v1 []⟩), false, false⟩) :=
  open_nonexistent_path "f" true ⟨none, false, false⟩ rfl

/-- Claim C10 — frame invariant.  Any `Save` (successful or not) touches
at most the entry for its own key and never the `file`, `version`, or
`autoFlush` fields; `Read` and `Flush` return the receiver unchanged, as
their source bodies never assign to it. -/
theorem save_read_flush_frame :
    (∀ (s : Stash) (k : String) (v : GoValue) (w : Disk)
        (s' : Stash) (w' : Disk) (e : Option StashError),
      s.Save k v w = some (s', w', e) →
        s'.file = s.file ∧ s'.version = s.version
        ∧ s'.autoFlush = s.autoFlush
        ∧ ∀ k', k' ≠ k → s'.entriesLookup k' = s.entriesLookup k')
    ∧ (∀ (s : Stash) (k : String) (ptr : GoValue)
          (r : Stash × GoValue × Option StashError),
        s.Read k ptr = some r → r.1 = s)
    ∧ ∀ (s : Stash) (w : Disk), (s.Flush w).1 = s := by
  refine ⟨?_, ?_, ?_⟩
  · intro s k v w s' w' e hsave
    rcases s with ⟨sf, sv, saf, sd⟩
    by_cases hv : sv = 1
    · subst hv
      cases v with
      | unmarshallable =>
        simp [Stash.Save, version1, marshalValue] at hsave
        obtain ⟨h1, h2, h3⟩ := hsave
        subst h1
        simp
      | serializable j =>
        cases sd with
        | none => simp [Stash.Save, version1, marshalValue] at hsave
        | some d =>
          cases hsaf : saf with
          | false =>
            simp [Stash.Save, version1, marshalValue, hsaf] at hsave
            obtain ⟨h1, h2, h3⟩ := hsave
            subst h1
            simp [Stash.entriesLookup]
            intro k' hk'
            exact lookupEntry_insertEntry_ne d k k' j hk'
          | true =>
            cases hwf : w.writeFails <;>
              · simp [Stash.Save, version1, marshalValue, hsaf, Stash.Flush,
                  FlushWith, WriteFile, hwf] at hsave
                obtain ⟨h1, h2, h3⟩ := hsave
                subst h1
                simp [Stash.entriesLookup]
                intro k' hk'
                exact lookupEntry_insertEntry_ne d k k' j hk'
    · simp [Stash.Save, version1, hv] at hsave
      obtain ⟨h1, h2, h3⟩ := hsave
      subst h1
      simp
  · intro s k ptr r hread
    rcases s with ⟨sf, sv, saf, sd⟩
    by_cases hv : sv = 1
    · subst hv
      cases sd with
      | none => simp [Stash.Read, version1] at hread
      | some data =>
        cases hl : lookupEntry data k with
        | some item =>
          simp [Stash.Read, version1, hl] at hread
          simp [← hread]
        | none =>
          simp [Stash.Read, version1, hl] at hread
          simp [← hread]
    · simp [Stash.Read, version1, hv] at hread
      simp [← hread]
  · intro s w
    rfl

/-- Claim C10 — witness: saving under key `"a"` leaves the entry for the
other key `"b"` unchanged. -/
theorem save_read_flush_frame_witness :
    (⟨"f", 1, false, some [("b", Json.num 2), ("a", Json.num 1)]⟩
        : Stash).entriesLookup "b"
      = (⟨"f", 1, false, some [("b", Json.num 2)]⟩ : Stash).entriesLookup "b" :=
  (save_read_flush_frame.1 ⟨"f", 1, false, some [("b", Json.num 2)]⟩ "a"
      (.serializable (Json.num 1)) ⟨none, false, false⟩
      ⟨"f", 1, false, some [("b", Json.num 2), ("a", Json.num 1)]⟩
      ⟨none, false, false⟩ none (by decide)).2.2.2 "b" (by decide)

/-- Claim C1 — round trip.  On any version-1 store with initialized
entries and a healthy disk: saving a serializable value under key `k`,
flushing, reopening the same path, then reading `k` all succeed, and the
read delivers exactly the saved value to the output reference. -/
theorem save_flush_open_read_round_trip
    (s : Stash) (w : Disk) (k : String) (j : Json) (d : v1Data)
    (fn2 : String) (ap2 : Bool) (ptr : GoValue)
    (hv : s.version = 1) (hd : s.data = some d)
    (hwf : w.writeFails = false) (hrf : w.readFails = false) :
    ∃ (s1 s2 s3 : Stash) (w1 w2 : Disk),
      s.Save k (.serializable j) w = some (s1, w1, none)
      ∧ s1.Flush w1 = (s2, w2, none)
      ∧ NewStash fn2 ap2 w2 = (some s3, none, w2)
      ∧ s3.Read k ptr = some (s3, .serializable j, none) := by
  rcases s with ⟨sf, sv, saf, sd⟩
  replace hv : sv = 1 := hv
  replace hd : sd = some d := hd
  subst hv
  subst hd
  rcases w with ⟨wfile, wwf, wrf⟩
  replace hwf : wwf = false := hwf
  replace hrf : wrf = false := hrf
  subst hwf
  subst hrf
  cases saf with
  | false =>
    refine ⟨⟨sf, 1, false, some (insertEntry d k j)⟩,
      ⟨sf, 1, false, some (insertEntry d k j)⟩,
      ⟨fn2, 1, ap2, some (insertEntry d k j)⟩,
      ⟨wfile, false, false⟩,
      ⟨some (.envelope ⟨1, .v1 (insertEntry d k j)⟩), false, false⟩,
      ?_, ?_, ?_, ?_⟩
    · simp [Stash.Save, version1, marshalValue]
    · simp [Stash.Flush, FlushWith, WriteFile, marshalData, marshalContainer]
    · simp [NewStash, Stash.readFromDisk, ReadFile, unmarshalContainer,
        unmarshalV1, version1]
    · simp [Stash.Read, version1, unmarshalValue,
        lookupEntry_insertEntry_self]
  | true =>
    refine ⟨⟨sf, 1, true, some (insertEntry d k j)⟩,
      ⟨sf, 1, true, some (insertEntry d k j)⟩,
      ⟨fn2, 1, ap2, some (insertEntry d k j)⟩,
      ⟨some (.envelope ⟨1, .v1 (insertEntry d k j)⟩), false, false⟩,
      ⟨some (.envelope ⟨1, .v1 (insertEntry d k j)⟩), false, false⟩,
      ?_, ?_, ?_, ?_⟩
    · simp [Stash.Save, version1, marshalValue, Stash.Flush, FlushWith,
        WriteFile, marshalData, marshalContainer]
    · simp [Stash.Flush, FlushWith, WriteFile, marshalData, marshalContainer]
    · simp [NewStash, Stash.readFromDisk, ReadFile, unmarshalContainer,
        unmarshalV1, version1]
    · simp [Stash.Read, version1, unmarshalValue,
        lookupEntry_insertEntry_self]

/-- Claim C1 — witness. -/
theorem save_flush_open_read_round_trip_witness :
    ∃ (s1 s2 s3 : Stash) (w1 w2 : Disk),
      (⟨"f", 1, false, some []⟩ : Stash).Save "k"
          (.serializable (.num 7)) ⟨none, false, false⟩
        = some (s1, w1, none)
      ∧ s1.Flush w1 = (s2, w2, none)
      ∧ NewStash "f" false w2 = (some s3, none, w2)
      ∧ s3.Read "k" (.serializable .null)
        = some (s3, .serializable (.num 7), none) :=
  save_flush_open_read_round_trip ⟨"f", 1, false, some []⟩
    ⟨none, false, false⟩ "k" (.num 7) [] "f" false (.serializable .null)
    rfl rfl rfl rfl
